import Mathlib

/-!
Shallow embedding of the polyaxon-schemas specification resolution engine
(`polyaxon_schemas/specs/base.py`, `polyaxon_schemas/specs/notebook.py`) and
of the loss-function discriminated-variant family
(`polyaxon_schemas/ml/losses.py`).

Python values appearing in documents are modelled by the inductive `Val`:
ints as `Int`, floats as `Rat` (the claims only store and compare float
literals, never compute with them), strings as `String`, `None` as `vNull`,
dicts as association lists with distinct keys, lists as `List`.

The operator mini-language (`ops/operators.py` with `ForConfig`/`IfConfig`)
is not under src/, so its nodes are modelled from the spec (section 4.3) as
two extra `Val` constructors, `opFor` and `opIf`, carrying a reference that
is either a literal boolean or a name looked up in the local scope and then
in the merged document.
-/

/-- A reference used by operator nodes.  Modelled from the spec: an If-node
condition is "a boolean-like value elsewhere in the merged document (or a
literal)"; a For-node iterable is "drawn from elsewhere in the document". -/
inductive Ref where
  | boolLit (b : Bool)
  | name (n : String)
deriving DecidableEq

/-- A nested document value (scalar, mapping, or sequence), with the two
operator nodes of the embedded mini-language. -/
inductive Val where
  | vNull
  | vBool (b : Bool)
  | vInt (n : Int)
  | vRat (q : Rat)
  | vStr (s : String)
  | vList (xs : List Val)
  | vMap (kvs : List (String × Val))
  | opIf (cond : Ref) (body : Val)
  | opFor (iter : Ref) (binding : String) (body : Val)

mutual

/-- Structural boolean equality on values (Python `==` on nested data). -/
def Val.beq : Val → Val → Bool
  | .vNull, .vNull => true
  | .vBool a, .vBool b => a == b
  | .vInt a, .vInt b => a == b
  | .vRat a, .vRat b => a == b
  | .vStr a, .vStr b => a == b
  | .vList xs, .vList ys => Val.beqList xs ys
  | .vMap xs, .vMap ys => Val.beqMap xs ys
  | .opIf c₁ b₁, .opIf c₂ b₂ => c₁ == c₂ && Val.beq b₁ b₂
  | .opFor r₁ x₁ b₁, .opFor r₂ x₂ b₂ => r₁ == r₂ && x₁ == x₂ && Val.beq b₁ b₂
  | _, _ => false

def Val.beqList : List Val → List Val → Bool
  | [], [] => true
  | x :: xs, y :: ys => Val.beq x y && Val.beqList xs ys
  | _, _ => false

def Val.beqMap : List (String × Val) → List (String × Val) → Bool
  | [], [] => true
  | (k₁, v₁) :: xs, (k₂, v₂) :: ys => k₁ == k₂ && Val.beq v₁ v₂ && Val.beqMap xs ys
  | _, _ => false

end

mutual

theorem Val.beq_iff : ∀ a b : Val, Val.beq a b = true ↔ a = b
  | .vNull, b => by cases b <;> simp [Val.beq]
  | .vBool x, b => by cases b <;> simp [Val.beq]
  | .vInt x, b => by cases b <;> simp [Val.beq]
  | .vRat x, b => by cases b <;> simp [Val.beq]
  | .vStr x, b => by cases b <;> simp [Val.beq]
  | .vList xs, b => by
      cases b <;> simp [Val.beq]
      exact Val.beqList_iff xs _
  | .vMap xs, b => by
      cases b <;> simp [Val.beq]
      exact Val.beqMap_iff xs _
  | .opIf c₁ b₁, b => by
      cases b <;> simp [Val.beq]
      intro _
      exact Val.beq_iff b₁ _
  | .opFor r₁ x₁ b₁, b => by
      cases b <;> simp [Val.beq]
      rw [Val.beq_iff b₁ _]
      tauto

theorem Val.beqList_iff : ∀ xs ys : List Val, Val.beqList xs ys = true ↔ xs = ys
  | [], ys => by cases ys <;> simp [Val.beqList]
  | x :: xs, ys => by
      cases ys <;> simp [Val.beqList]
      rw [Val.beq_iff x _, Val.beqList_iff xs _]

theorem Val.beqMap_iff : ∀ xs ys : List (String × Val), Val.beqMap xs ys = true ↔ xs = ys
  | [], ys => by cases ys <;> simp [Val.beqMap]
  | (k₁, v₁) :: xs, ys => by
      cases ys with
      | nil => simp [Val.beqMap]
      | cons hd tl =>
          obtain ⟨k₂, v₂⟩ := hd
          simp only [Val.beqMap, Bool.and_eq_true, beq_iff_eq, List.cons.injEq, Prod.mk.injEq]
          rw [Val.beq_iff v₁ _, Val.beqMap_iff xs _]

end

instance : DecidableEq Val := fun a b =>
  decidable_of_iff _ (Val.beq_iff a b)

/-- A top-level document: an ordered mapping from section names to values. -/
abbrev Doc := List (String × Val)

/-- First-match key lookup in an association list (Python dict access). -/
def lookupKey : List (String × Val) → String → Option Val
  | [], _ => none
  | (k', v) :: rest, k => if k = k' then some v else lookupKey rest k

/-- The top-level keys of a document. -/
def docKeys (d : Doc) : List String := d.map Prod.fst

/-! ## Class-level constants of `BaseSpecification` (specs/base.py) -/

/-- Source `BaseSpecification._KINDS`: the closed set of specification kinds. -/
def KINDS : List String :=
  ["experiment", "group", "job", "notebook", "tensorboard", "build"]

/-- Source `BaseSpecification.MIN_VERSION`. -/
def MIN_VERSION : Int := 1

/-- Source `BaseSpecification.MAX_VERSION`. -/
def MAX_VERSION : Int := 1

/-- Source `BaseSpecification.SECTIONS`: every legal top-level key of the format,
in the declared tuple order. -/
def SECTIONS : List String :=
  ["version", "kind", "tags", "backend", "framework", "environment",
   "declarations", "logging", "hptuning", "build", "run"]

/-- Source `BaseSpecification.OP_PARSING_SECTIONS`: the operator-bearing sections. -/
def OP_PARSING_SECTIONS : List String := ["build", "run"]

/-- The per-class (per-kind) constants a concrete specification class binds:
`_SPEC_KIND`, `POSSIBLE_SECTIONS`, `REQUIRED_SECTIONS`, `HEADER_SECTIONS`. -/
structure SpecClass where
  specKind : String
  possibleSections : List String
  requiredSections : List String
  headerSections : List String
deriving DecidableEq

/-- Source class `BaseRunSpecification` (specs/base.py): the concrete build-kind class in
src/ — `_SPEC_KIND = 'build'`, with `ENVIRONMENT`, `BUILD` and `BACKEND`
added to the possible sections and `BACKEND` to the header sections. -/
def baseRunSpecification : SpecClass :=
  { specKind := "build"
    possibleSections :=
      ["version", "kind", "logging", "tags", "environment", "build", "backend"]
    requiredSections := ["version", "kind"]
    headerSections := ["version", "kind", "logging", "tags", "backend"] }

/-! ## Errors

One structured error per failure mode.  `check_version`, `check_kind` and
`check_data` raise `PolyaxonfileError`s with distinct messages; the header
validator and the notebook rewrap raise `PolyaxonConfigurationError`s.  Each
distinct message is a distinct constructor here. -/

inductive PErr where
  | missingVersion
  | unsupportedVersion (minV maxV : Int)
  /-- A `version` value that is not an integer cannot be range-compared. -/
  | versionNotInt
  | missingKind
  | unsupportedKind (v : Val)
  | kindMismatch (kind : String)
  | unexpectedSection (key : String)
  | unsupportedSection (key : String)
  | missingRequiredSection (key : String)
  | headerValidation
  | operatorReference (n : String)
  | operatorType
  | notebookBuildSection
deriving DecidableEq

/-! ## Header checks (`check_version`, `check_kind`, `check_data`) -/

/-- Source `BaseSpecification.check_version` (specs/base.py:119-129): `version` must
be present and satisfy `MIN_VERSION <= version <= MAX_VERSION`. -/
def check_version (data : Doc) : Except PErr Unit :=
  match lookupKey data "version" with
  | none => .error .missingVersion
  | some (.vInt v) =>
      if MIN_VERSION ≤ v ∧ v ≤ MAX_VERSION then .ok ()
      else .error (.unsupportedVersion MIN_VERSION MAX_VERSION)
  | some _ => .error .versionNotInt

/-- Source `BaseSpecification.check_kind` (specs/base.py:131-138): `kind` must be
present and belong to the closed `_KINDS` set. -/
def check_kind (data : Doc) : Except PErr Unit :=
  match lookupKey data "kind" with
  | none => .error .missingKind
  | some (.vStr s) =>
      if s ∈ KINDS then .ok () else .error (.unsupportedKind (.vStr s))
  | some v => .error (.unsupportedKind v)

/-- The `check_data` kind-compatibility test (specs/base.py:144-147): the
document's `kind` must equal the class's `_SPEC_KIND`. -/
def check_kind_match (cls : SpecClass) (data : Doc) : Except PErr Unit :=
  match lookupKey data "kind" with
  | some (.vStr s) =>
      if s = cls.specKind then .ok () else .error (.kindMismatch s)
  | _ => .error (.kindMismatch cls.specKind)

/-- First key of `ks` that is not in `allowed`.  The Python loops iterate a
set difference, whose order is unspecified; the embedding scans the keys in
document order, which is one admissible order. -/
def firstNotIn (allowed : List String) : List String → Option String :=
  List.find? (fun k => decide (k ∉ allowed))

/-- The three section-shape scans of `check_data` (specs/base.py:148-163):
any key outside `SECTIONS` is an unexpected section, any key outside the
class's `POSSIBLE_SECTIONS` is unsupported for this kind, and every
`REQUIRED_SECTIONS` entry must be present. -/
def check_sections (cls : SpecClass) (data : Doc) : Except PErr Unit :=
  match firstNotIn SECTIONS (docKeys data) with
  | some k => .error (.unexpectedSection k)
  | none =>
    match firstNotIn cls.possibleSections (docKeys data) with
    | some k => .error (.unsupportedSection k)
    | none =>
      match cls.requiredSections.find? (fun k => decide (lookupKey data k = none)) with
      | some k => .error (.missingRequiredSection k)
      | none => .ok ()

/-- Source `BaseSpecification.check_data` (specs/base.py:140-163): version check,
then kind check, then kind compatibility, then the section scans. -/
def check_data (cls : SpecClass) (data : Doc) : Except PErr Unit :=
  match check_version data with
  | .error e => .error e
  | .ok () =>
    match check_kind data with
    | .error e => .error e
    | .ok () =>
      match check_kind_match cls data with
      | .error e => .error e
      | .ok () => check_sections cls data

/-! ## The external document merge (`rhea.read`)

Modelled from the spec: the merge collaborator "accepts an ordered list of
sources, returns one merged mapping, later sources override earlier keys"
(last-source-wins per top-level key).  Existing keys keep their position and
take the later source's value; new keys are appended in source order. -/

/-- Merge a second mapping on top of a first, the second's keys overriding. -/
def mergeTwo (a b : Doc) : Doc :=
  a.map (fun kv => (kv.1, (lookupKey b kv.1).getD kv.2)) ++
    b.filter (fun kv => decide (lookupKey a kv.1 = none))

/-- Merge an ordered list of sources, later sources overriding earlier. -/
def mergeAll (values : List Doc) : Doc := values.foldl mergeTwo []

/-! ## Validated headers

`Parser.get_headers` and `validator.validate_headers` are not under src/.
Modelled from the spec: the header subset `{version, kind, tags, logging}`
(plus `backend` for run specifications) is "extracted before general
parsing"; a Header is `{version: integer, kind: SpecKind, tags: optional
set of string, logging: optional logging-config}`. -/

structure Headers where
  version : Int
  kind : String
  tags : Option (List String)
  logging : Option Val
  backend : Option Val
deriving DecidableEq

/-- Modelled from the spec: `Parser.get_headers` restricts the merged
document to the class's header sections. -/
def get_headers (cls : SpecClass) (data : Doc) : Doc :=
  data.filter (fun kv => decide (kv.1 ∈ cls.headerSections))

/-- Extract an optional list of strings (the `tags` header field). -/
def tagsField : Option Val → Except PErr (Option (List String))
  | none => .ok none
  | some .vNull => .ok none
  | some (.vList xs) =>
      match xs.mapM (fun x => match x with | .vStr s => some s | _ => none) with
      | some ss => .ok (some ss)
      | none => .error .headerValidation
  | some _ => .error .headerValidation

/-- Modelled from the spec: `validator.validate_headers` checks the header
fields' shapes and returns the immutable Header value. -/
def validate_headers (d : Doc) : Except PErr Headers :=
  match lookupKey d "version" with
  | some (.vInt v) =>
    match lookupKey d "kind" with
    | some (.vStr k) =>
      match tagsField (lookupKey d "tags") with
      | .error e => .error e
      | .ok tags =>
          .ok { version := v, kind := k, tags := tags,
                logging := lookupKey d "logging",
                backend := lookupKey d "backend" }
    | _ => .error .headerValidation
  | _ => .error .headerValidation

/-! ## Operator resolution (`Parser.parse` and the operator configs)

`specs/libs/parser.py` and `ops/operators.py` are not under src/.  Modelled
from the spec (section 4.3): resolving a value inside an operator-bearing
section yields a lazy sequence of plain values; an If-node yields its
resolved body when the condition is truthy and nothing otherwise; a For-node
binds its name to each element of the iterable in a local scope and splices
the per-element resolutions, in document order; unresolvable references fail
with a reference error and ill-typed ones with a type error. -/

/-- Look a reference up in the local scope first, then in the merged
document (outer scopes only, never values still being computed). -/
def refLookup (doc : Doc) (scope : List (String × Val)) (n : String) : Option Val :=
  match lookupKey scope n with
  | some v => some v
  | none => lookupKey doc n

/-- Evaluate an If-node condition to a boolean. -/
def evalCond (doc : Doc) (scope : List (String × Val)) : Ref → Except PErr Bool
  | .boolLit b => .ok b
  | .name n =>
    match refLookup doc scope n with
    | none => .error (.operatorReference n)
    | some (.vBool b) => .ok b
    | some _ => .error .operatorType

/-- Evaluate a For-node iterable reference to a finite ordered sequence. -/
def evalIter (doc : Doc) (scope : List (String × Val)) : Ref → Except PErr (List Val)
  | .boolLit _ => .error .operatorType
  | .name n =>
    match refLookup doc scope n with
    | none => .error (.operatorReference n)
    | some (.vList xs) => .ok xs
    | some _ => .error .operatorType

mutual

/-- Resolve one value to the (zero or more) plain values it stands for. -/
def resolveVal (doc : Doc) (scope : List (String × Val)) : Val → Except PErr (List Val)
  | .opIf c body =>
    match evalCond doc scope c with
    | .error e => .error e
    | .ok true => resolveVal doc scope body
    | .ok false => .ok []
  | .opFor r x body =>
    match evalIter doc scope r with
    | .error e => .error e
    | .ok xs => resolveForLoop doc scope x body xs
  | .vList xs =>
    match resolveSeq doc scope xs with
    | .error e => .error e
    | .ok ys => .ok [.vList ys]
  | .vMap kvs =>
    match resolveEntries doc scope kvs with
    | .error e => .error e
    | .ok kvs' => .ok [.vMap kvs']
  | v => .ok [v]
termination_by v => (sizeOf v, 0)

/-- Resolve a For-node body once per element of the iterable, binding the
loop name in a local scope, and splice the results in order. -/
def resolveForLoop (doc : Doc) (scope : List (String × Val)) (x : String)
    (body : Val) : List Val → Except PErr (List Val)
  | [] => .ok []
  | v :: vs =>
    match resolveVal doc ((x, v) :: scope) body with
    | .error e => .error e
    | .ok rs =>
      match resolveForLoop doc scope x body vs with
      | .error e => .error e
      | .ok rest => .ok (rs ++ rest)
termination_by vs => (sizeOf body, 1 + vs.length)

/-- Resolve every element of a sequence, splicing multi-valued results. -/
def resolveSeq (doc : Doc) (scope : List (String × Val)) :
    List Val → Except PErr (List Val)
  | [] => .ok []
  | v :: vs =>
    match resolveVal doc scope v with
    | .error e => .error e
    | .ok rs =>
      match resolveSeq doc scope vs with
      | .error e => .error e
      | .ok rest => .ok (rs ++ rest)
termination_by vs => (sizeOf vs, 0)

/-- Resolve the values of a mapping; an entry resolving to nothing is
dropped, and one resolving to several values keeps them as a list. -/
def resolveEntries (doc : Doc) (scope : List (String × Val)) :
    List (String × Val) → Except PErr (List (String × Val))
  | [] => .ok []
  | (k, v) :: rest =>
    match resolveVal doc scope v with
    | .error e => .error e
    | .ok vs =>
      match resolveEntries doc scope rest with
      | .error e => .error e
      | .ok rest' =>
        match vs with
        | [] => .ok rest'
        | [v'] => .ok ((k, v') :: rest')
        | vs => .ok ((k, .vList vs) :: rest')
termination_by kvs => (sizeOf kvs, 0)

end

/-- Modelled from the spec: `Parser.parse` walks the merged document's
sections; an operator-bearing section (`build`, `run`) is expanded by the
operator resolver against the full merged document, every other section is
parsed by its own out-of-scope mechanical field schema and kept as is.  A
section expanding to nothing is dropped; one expanding to several values
keeps them as a list. -/
def parseSections (data : Doc) : Doc → Except PErr Doc
  | [] => .ok []
  | (k, v) :: rest =>
    match parseSections data rest with
    | .error e => .error e
    | .ok rest' =>
      if k ∈ OP_PARSING_SECTIONS then
        match resolveVal data [] v with
        | .error e => .error e
        | .ok [] => .ok rest'
        | .ok [v'] => .ok ((k, v') :: rest')
        | .ok vs => .ok ((k, .vList vs) :: rest')
      else .ok ((k, v) :: rest')

/-- Runs `Parser.parse(spec, data, None)` on the merged document. -/
def parseDoc (data : Doc) : Except PErr Doc := parseSections data data

/-! ## The resolved specification (`BaseSpecification.__init__`) -/

/-- A resolved specification: the source list, the merged document, the
validated headers and the parsed document (`_values`, `_data`, `_headers`,
`_parsed_data`).  `CONFIG` is `None` on `BaseSpecification`, so `_config`
stays `None` and carries no information here. -/
structure Spec where
  values : List Doc
  data : Doc
  headers : Headers
  parsedData : Doc
deriving DecidableEq

/-- The body of `__init__` once the sources are merged into `data`. -/
def specMkWith (cls : SpecClass) (values : List Doc) (data : Doc) : Except PErr Spec :=
  match check_data cls data with
  | .error e => .error e
  | .ok () =>
    match validate_headers (get_headers cls data) with
    | .error e => .error e
    | .ok headers =>
      match parseDoc data with
      | .error e => .error e
      | .ok parsedData =>
          .ok { values := values, data := data,
                headers := headers, parsedData := parsedData }

/-- Source `BaseSpecification.__init__(values)` (specs/base.py:82-99): merge the
sources, run `check_data`, extract and validate the headers, and parse the
document; any failure aborts construction with that error. -/
def specMk (cls : SpecClass) (values : List Doc) : Except PErr Spec :=
  specMkWith cls values (mergeAll values)

/-- An argument to `read`: either an already-constructed specification of
this class (the `isinstance(values, cls)` branch) or raw source data. -/
inductive ReadValue where
  | spec (s : Spec)
  | raw (values : List Doc)

/-- Source `BaseSpecification.read` (specs/base.py:174-178): return an instance of
this class unchanged, otherwise construct a new specification. -/
def specRead (cls : SpecClass) : ReadValue → Except PErr Spec
  | .spec s => .ok s
  | .raw values => specMk cls values

/-- Source `BaseSpecification.patch` (specs/base.py:165-167): re-read from
`[self._parsed_data] + to_list(values)`.  Note the code restarts from the
PARSED document, not from the original merged document. -/
def specPatch (cls : SpecClass) (s : Spec) (values : List Doc) : Except PErr Spec :=
  specRead cls (.raw (s.parsedData :: values))

/-- Source `BaseSpecification.tags` (specs/base.py:242-245):
`list(set(tags)) if tags else None`.  Python's `set` iteration order is
unspecified; the embedding keeps the first occurrence of each element. -/
def Spec.tags (s : Spec) : Option (List String) :=
  match s.headers.tags with
  | none => none
  | some l => if l = [] then none else some l.dedup

/-! ## Notebook extra validation (specs/notebook.py)

`BuildSpecification` (specs/build.py) is not under src/.  Modelled from the
spec: no extra validation step is specified for the build kind, so the
method `NotebookSpecification._extra_validation` delegates to is the
inherited `BaseSpecification._extra_validation` (specs/base.py:101-102),
which is `pass` — it returns without raising. -/

/-- Source `BaseSpecification._extra_validation`: a no-op. -/
def base_extra_validation (_s : Spec) : Except PErr Unit := .ok ()

/-- Modelled from the spec: `BuildSpecification` defines no extra
validation of its own, so it inherits the base no-op. -/
def build_extra_validation (s : Spec) : Except PErr Unit :=
  base_extra_validation s

/-- Source `NotebookSpecification._extra_validation` (specs/notebook.py:25-30):
call the inherited validation and rewrap any `PolyaxonConfigurationError`
into the message about a valid `build` section. -/
def notebook_extra_validation (s : Spec) : Except PErr Unit :=
  match build_extra_validation s with
  | .error _ => .error .notebookBuildSection
  | .ok () => .ok ()

/-! ## The loss-function variant family (ml/losses.py)

The field declarations come from the schemas in src/ (`BaseLossSchema` and
its subclasses).  The generic dispatch machinery (`BaseMultiSchema`) and the
serializer (`BaseConfig.remove_reduced_attrs`) live in
`polyaxon_schemas/base.py`, which is not under src/; they are modelled from
the spec (section 4.4): a raw value is a bare identifier or a single-entry
mapping from identifier to parameters; unknown identifiers, multiple
selectors, unknown fields, ill-typed fields and missing required fields each
fail with their own error; serialization omits any field of the `REDUCED`
set (`input_layer`, `output_layer`, `name`, from `BaseLossConfig`, losses.py
line 19) whose value equals its default or is empty, and emits every other
field. -/

inductive LossErr where
  | unknownVariant (id : String)
  | multipleVariantSelectors
  /-- The selection is neither a bare name nor `{name: params}`. -/
  | invalidSelector
  | unknownField (f : String)
  | missingRequiredField (f : String)
  | fieldType (f : String)
deriving DecidableEq

/-- The fields shared by every loss config (`BaseLossSchema`, losses.py
lines 10-15): `input_layer`/`output_layer` optional tensors, `weights`
float defaulting to 1.0, `name` optional string, `collect` bool defaulting
to true. -/
structure BaseLossFields where
  input_layer : Option Val
  output_layer : Option Val
  weights : Rat
  name : Option String
  collect : Bool
deriving DecidableEq

/-- One constructor per registered variant of `LossSchema.__configs__`
(losses.py lines 765-778), carrying the subclass's extra fields. -/
inductive LossConfig where
  | absoluteDifference (b : BaseLossFields)
  | meanSquaredError (b : BaseLossFields)
  | logLoss (b : BaseLossFields) (epsilon : Rat)
  | huberLoss (b : BaseLossFields) (clip : Rat)
  | clippedDeltaLoss (b : BaseLossFields) (clip_value_min clip_value_max : Rat)
  | softmaxCrossEntropy (b : BaseLossFields) (label_smoothing : Rat)
  | sigmoidCrossEntropy (b : BaseLossFields) (label_smoothing : Rat)
  | hingeLoss (b : BaseLossFields)
  | cosineDistance (b : BaseLossFields) (dim : Int)
  | poissonLoss (b : BaseLossFields)
  | kullbackLeiberDivergence (b : BaseLossFields) (dim : Int)
deriving DecidableEq

/-- The `IDENTIFIER` of the variant an instance belongs to. -/
def lossIdentifier : LossConfig → String
  | .absoluteDifference _ => "AbsoluteDifference"
  | .meanSquaredError _ => "MeanSquaredError"
  | .logLoss _ _ => "LogLoss"
  | .huberLoss _ _ => "HuberLoss"
  | .clippedDeltaLoss _ _ _ => "ClippedDeltaLoss"
  | .softmaxCrossEntropy _ _ => "SoftmaxCrossEntropy"
  | .sigmoidCrossEntropy _ _ => "SigmoidCrossEntropy"
  | .hingeLoss _ => "HingeLoss"
  | .cosineDistance _ _ => "CosineDistance"
  | .poissonLoss _ => "PoissonLoss"
  | .kullbackLeiberDivergence _ _ => "KullbackLeiberDivergence"

/-- First parameter key not among the variant's declared fields. -/
def findUnknown (allowed : List String) : List (String × Val) → Option String
  | [] => none
  | (k, _) :: rest => if k ∈ allowed then findUnknown allowed rest else some k

/-- An optional tensor field (`Tensor(allow_none=True)`): absent or null
loads as `None`; the `Tensor` leaf schema itself is out of scope, so other
values are kept as supplied. -/
def tensorField : Option Val → Except LossErr (Option Val)
  | none => .ok none
  | some v => .ok (if v = .vNull then none else some v)

/-- A float field with a load default (`fields.Float(missing=d)`); an
integer is accepted and converted, as marshmallow's `Float` does. -/
def floatField (f : String) (dflt : Rat) : Option Val → Except LossErr Rat
  | none => .ok dflt
  | some (.vRat q) => .ok q
  | some (.vInt n) => .ok (n : Rat)
  | some _ => .error (.fieldType f)

/-- A bool field with a load default (`fields.Bool(missing=d)`). -/
def boolField (f : String) (dflt : Bool) : Option Val → Except LossErr Bool
  | none => .ok dflt
  | some (.vBool b) => .ok b
  | some _ => .error (.fieldType f)

/-- The `name` field (`fields.Str(allow_none=True)`); when it is absent the
config constructor's default applies (`None`, except
`KullbackLeiberDivergenceConfig.__init__`, losses.py line 758). -/
def nameField (dflt : Option String) : Option Val → Except LossErr (Option String)
  | none => .ok dflt
  | some .vNull => .ok none
  | some (.vStr s) => .ok (some s)
  | some _ => .error (.fieldType "name")

/-- A required int field with no default (`fields.Int()` for `dim`):
absence is a missing-required-field failure. -/
def intField (f : String) : Option Val → Except LossErr Int
  | none => .error (.missingRequiredField f)
  | some (.vInt n) => .ok n
  | some _ => .error (.fieldType f)

/-- The shared field names of `BaseLossSchema`. -/
def baseLossFIELDS : List String :=
  ["input_layer", "output_layer", "weights", "name", "collect"]

/-- Load the shared fields, absent ones taking their declared defaults. -/
def makeBase (nameDflt : Option String) (params : List (String × Val)) :
    Except LossErr BaseLossFields :=
  match tensorField (lookupKey params "input_layer") with
  | .error e => .error e
  | .ok il =>
    match tensorField (lookupKey params "output_layer") with
    | .error e => .error e
    | .ok ol =>
      match floatField "weights" 1 (lookupKey params "weights") with
      | .error e => .error e
      | .ok w =>
        match nameField nameDflt (lookupKey params "name") with
        | .error e => .error e
        | .ok nm =>
          match boolField "collect" true (lookupKey params "collect") with
          | .error e => .error e
          | .ok c => .ok ⟨il, ol, w, nm, c⟩

/-- Build a variant with no extra fields. -/
def mkPlain (ctor : BaseLossFields → LossConfig) (params : List (String × Val)) :
    Except LossErr LossConfig :=
  match findUnknown baseLossFIELDS params with
  | some k => .error (.unknownField k)
  | none =>
    match makeBase none params with
    | .error e => .error e
    | .ok b => .ok (ctor b)

/-- Build a variant with one extra float field with a default. -/
def mkFloatExtra (field : String) (dflt : Rat)
    (ctor : BaseLossFields → Rat → LossConfig) (params : List (String × Val)) :
    Except LossErr LossConfig :=
  match findUnknown (baseLossFIELDS ++ [field]) params with
  | some k => .error (.unknownField k)
  | none =>
    match makeBase none params with
    | .error e => .error e
    | .ok b =>
      match floatField field dflt (lookupKey params field) with
      | .error e => .error e
      | .ok x => .ok (ctor b x)

/-- Build a variant with the required `dim` field and no default for it. -/
def mkDim (nameDflt : Option String) (ctor : BaseLossFields → Int → LossConfig)
    (params : List (String × Val)) : Except LossErr LossConfig :=
  match findUnknown (baseLossFIELDS ++ ["dim"]) params with
  | some k => .error (.unknownField k)
  | none =>
    match makeBase nameDflt params with
    | .error e => .error e
    | .ok b =>
      match intField "dim" (lookupKey params "dim") with
      | .error e => .error e
      | .ok d => .ok (ctor b d)

/-- Build `ClippedDeltaLoss`, whose schema loads both clip bounds with
`missing=-1.` (losses.py lines 294-295). -/
def mkClippedDelta (params : List (String × Val)) : Except LossErr LossConfig :=
  match findUnknown (baseLossFIELDS ++ ["clip_value_min", "clip_value_max"]) params with
  | some k => .error (.unknownField k)
  | none =>
    match makeBase none params with
    | .error e => .error e
    | .ok b =>
      match floatField "clip_value_min" (-1) (lookupKey params "clip_value_min") with
      | .error e => .error e
      | .ok mn =>
        match floatField "clip_value_max" (-1) (lookupKey params "clip_value_max") with
        | .error e => .error e
        | .ok mx => .ok (.clippedDeltaLoss b mn mx)

/-- Dispatch a selected identifier with its parameter mapping through the
registry (`LossSchema.__configs__`). -/
def makeVariant (name : String) (params : List (String × Val)) :
    Except LossErr LossConfig :=
  match name with
  | "AbsoluteDifference" => mkPlain .absoluteDifference params
  | "MeanSquaredError" => mkPlain .meanSquaredError params
  | "LogLoss" => mkFloatExtra "epsilon" (1 / 10000000) .logLoss params
  | "HuberLoss" => mkFloatExtra "clip" 0 .huberLoss params
  | "ClippedDeltaLoss" => mkClippedDelta params
  | "SoftmaxCrossEntropy" => mkFloatExtra "label_smoothing" 0 .softmaxCrossEntropy params
  | "SigmoidCrossEntropy" => mkFloatExtra "label_smoothing" 0 .sigmoidCrossEntropy params
  | "HingeLoss" => mkPlain .hingeLoss params
  | "CosineDistance" => mkDim none .cosineDistance params
  | "PoissonLoss" => mkPlain .poissonLoss params
  | "KullbackLeiberDivergence" =>
      mkDim (some "KullbackLeiberDivergence") .kullbackLeiberDivergence params
  | _ => .error (.unknownVariant name)

/-- The `make` operation: resolve a raw loss selection — a bare identifier string, or a
single-entry mapping from identifier to parameter mapping — to a typed
variant instance. -/
def lossMake : Val → Except LossErr LossConfig
  | .vStr name => makeVariant name []
  | .vMap [(name, .vMap params)] => makeVariant name params
  | .vMap [(name, .vNull)] => makeVariant name []
  | .vMap kvs =>
      if kvs.length ≤ 1 then .error .invalidSelector
      else .error .multipleVariantSelectors
  | _ => .error .invalidSelector

/-- Emit an optional tensor field; reduced, so an empty value is omitted. -/
def dumpTensor (f : String) : Option Val → List (String × Val)
  | none => []
  | some v => [(f, v)]

/-- Emit the reduced `name` field: omitted when unset or equal to the
variant's declared default. -/
def dumpName (dflt : Option String) : Option String → List (String × Val)
  | none => []
  | some s => if some s = dflt then [] else [("name", .vStr s)]

/-- Emit the shared fields in the ordered schema's declaration order:
`input_layer`, `output_layer`, `weights`, `name`, `collect`; the reduced
fields are omitted at their defaults, every other field is emitted. -/
def dumpBase (nameDflt : Option String) (b : BaseLossFields) : List (String × Val) :=
  dumpTensor "input_layer" b.input_layer ++
  dumpTensor "output_layer" b.output_layer ++
  [("weights", .vRat b.weights)] ++
  dumpName nameDflt b.name ++
  [("collect", .vBool b.collect)]

/-- The `unmake` operation: serialize a variant instance back to its minimal raw form,
`{IDENTIFIER: fields}`, the subclass's extra fields after the inherited
ones. -/
def lossUnmake : LossConfig → Val
  | .absoluteDifference b => .vMap [("AbsoluteDifference", .vMap (dumpBase none b))]
  | .meanSquaredError b => .vMap [("MeanSquaredError", .vMap (dumpBase none b))]
  | .logLoss b eps =>
      .vMap [("LogLoss", .vMap (dumpBase none b ++ [("epsilon", .vRat eps)]))]
  | .huberLoss b clip =>
      .vMap [("HuberLoss", .vMap (dumpBase none b ++ [("clip", .vRat clip)]))]
  | .clippedDeltaLoss b mn mx =>
      .vMap [("ClippedDeltaLoss",
        .vMap (dumpBase none b ++
          [("clip_value_min", .vRat mn), ("clip_value_max", .vRat mx)]))]
  | .softmaxCrossEntropy b ls =>
      .vMap [("SoftmaxCrossEntropy",
        .vMap (dumpBase none b ++ [("label_smoothing", .vRat ls)]))]
  | .sigmoidCrossEntropy b ls =>
      .vMap [("SigmoidCrossEntropy",
        .vMap (dumpBase none b ++ [("label_smoothing", .vRat ls)]))]
  | .hingeLoss b => .vMap [("HingeLoss", .vMap (dumpBase none b))]
  | .cosineDistance b d =>
      .vMap [("CosineDistance", .vMap (dumpBase none b ++ [("dim", .vInt d)]))]
  | .poissonLoss b => .vMap [("PoissonLoss", .vMap (dumpBase none b))]
  | .kullbackLeiberDivergence b d =>
      .vMap [("KullbackLeiberDivergence",
        .vMap (dumpBase (some "KullbackLeiberDivergence") b ++ [("dim", .vInt d)]))]

/-! ## Operator-free values -/

mutual

/-- A value containing no operator node anywhere. -/
def Val.opFree : Val → Bool
  | .opIf _ _ => false
  | .opFor _ _ _ => false
  | .vList xs => Val.opFreeList xs
  | .vMap kvs => Val.opFreeEntries kvs
  | _ => true

def Val.opFreeList : List Val → Bool
  | [] => true
  | v :: vs => Val.opFree v && Val.opFreeList vs

def Val.opFreeEntries : List (String × Val) → Bool
  | [] => true
  | (_, v) :: rest => Val.opFree v && Val.opFreeEntries rest

end

/-- A document whose section values are all operator-free. -/
def docOpFree (d : Doc) : Bool := Val.opFreeEntries d

/-! ## Concrete documents used by the claims -/

/-- A valid build-kind document whose `build` section holds an If-node with
a literal-true condition around a plain value. -/
def cexA : Doc :=
  [("version", .vInt 1), ("kind", .vStr "build"),
   ("build", .vMap [("dockerfile", .opIf (.boolLit true) (.vStr "Dockerfile"))])]

/-- Document `cexA` after operator expansion: the If-node is replaced by its body. -/
def cexAParsed : Doc :=
  [("version", .vInt 1), ("kind", .vStr "build"),
   ("build", .vMap [("dockerfile", .vStr "Dockerfile")])]

/-- An extra source adding a `tags` section. -/
def cexB : Doc := [("tags", .vList [.vStr "t"])]

/-- The specification resolved from `[cexA]`. -/
def cexS : Spec :=
  { values := [cexA], data := cexA,
    headers := { version := 1, kind := "build", tags := none,
                 logging := none, backend := none },
    parsedData := cexAParsed }

/-- The merged document of `cexS.patch([cexB])`: the parsed document of
`cexS` with `cexB`'s sections merged on top. -/
def cexPatchedData : Doc := cexAParsed ++ cexB

/-- The specification produced by `cexS.patch([cexB])`. -/
def cexPatched : Spec :=
  { values := [cexAParsed, cexB], data := cexPatchedData,
    headers := { version := 1, kind := "build", tags := some ["t"],
                 logging := none, backend := none },
    parsedData := cexPatchedData }

/-! ## Round-trip raw selections (for the loss family)

A canonical raw parameter mapping that supplies every non-reduced field and
optionally the reduced ones, written in the ordered schema's field order
(Python compares dicts without regard to entry order, so one fixed order
represents the dict). -/

/-- The values a raw selection supplies for the shared fields: the reduced
`input_layer`, `output_layer` and `name` optionally, `weights` and
`collect` always. -/
structure RawBase where
  il : Option Val
  ol : Option Val
  w : Rat
  nm : Option String
  c : Bool
deriving DecidableEq

/-- A supplied reduced tensor must not be null (a null value is equivalent
to leaving the field unset, and is omitted again on serialization). -/
def RawBase.wf (b : RawBase) : Prop :=
  b.il ≠ some .vNull ∧ b.ol ≠ some .vNull

/-- The parameter entries for the shared fields, in schema order. -/
def rawBaseParams (b : RawBase) : List (String × Val) :=
  dumpTensor "input_layer" b.il ++
  dumpTensor "output_layer" b.ol ++
  [("weights", .vRat b.w)] ++
  (match b.nm with | none => [] | some s => [("name", .vStr s)]) ++
  [("collect", .vBool b.c)]

/-- The loaded shared fields such a selection produces: `name` falls back
to the variant's constructor default when not supplied. -/
def expectedBase (nameDflt : Option String) (b : RawBase) : BaseLossFields :=
  { input_layer := b.il, output_layer := b.ol, weights := b.w,
    name := (match b.nm with | none => nameDflt | some s => some s),
    collect := b.c }

/-- One raw selection per registered variant: the shared field values plus
the variant's extra field values. -/
inductive RTCase where
  | ad (b : RawBase)
  | mse (b : RawBase)
  | log (b : RawBase) (eps : Rat)
  | huber (b : RawBase) (clip : Rat)
  | cdl (b : RawBase) (mn mx : Rat)
  | sce (b : RawBase) (ls : Rat)
  | sige (b : RawBase) (ls : Rat)
  | hinge (b : RawBase)
  | cos (b : RawBase) (dim : Int)
  | poisson (b : RawBase)
  | kl (b : RawBase) (dim : Int)
deriving DecidableEq

/-- The shared field values of a case. -/
def RTCase.base : RTCase → RawBase
  | .ad b | .mse b | .log b _ | .huber b _ | .cdl b _ _ | .sce b _
  | .sige b _ | .hinge b | .cos b _ | .poisson b | .kl b _ => b

/-- The selected identifier of a case. -/
def RTCase.ident : RTCase → String
  | .ad _ => "AbsoluteDifference"
  | .mse _ => "MeanSquaredError"
  | .log _ _ => "LogLoss"
  | .huber _ _ => "HuberLoss"
  | .cdl _ _ _ => "ClippedDeltaLoss"
  | .sce _ _ => "SoftmaxCrossEntropy"
  | .sige _ _ => "SigmoidCrossEntropy"
  | .hinge _ => "HingeLoss"
  | .cos _ _ => "CosineDistance"
  | .poisson _ => "PoissonLoss"
  | .kl _ _ => "KullbackLeiberDivergence"

/-- The extra field entries of a case, in schema order. -/
def RTCase.extras : RTCase → List (String × Val)
  | .ad _ | .mse _ | .hinge _ | .poisson _ => []
  | .log _ eps => [("epsilon", .vRat eps)]
  | .huber _ clip => [("clip", .vRat clip)]
  | .cdl _ mn mx => [("clip_value_min", .vRat mn), ("clip_value_max", .vRat mx)]
  | .sce _ ls | .sige _ ls => [("label_smoothing", .vRat ls)]
  | .cos _ d | .kl _ d => [("dim", .vInt d)]

/-- The raw selection of a case: `{identifier: parameters}`. -/
def RTCase.toRaw (r : RTCase) : Val :=
  .vMap [(r.ident, .vMap (rawBaseParams r.base ++ r.extras))]

/-- The variant instance the selection should load to. -/
def RTCase.expected : RTCase → LossConfig
  | .ad b => .absoluteDifference (expectedBase none b)
  | .mse b => .meanSquaredError (expectedBase none b)
  | .log b eps => .logLoss (expectedBase none b) eps
  | .huber b clip => .huberLoss (expectedBase none b) clip
  | .cdl b mn mx => .clippedDeltaLoss (expectedBase none b) mn mx
  | .sce b ls => .softmaxCrossEntropy (expectedBase none b) ls
  | .sige b ls => .sigmoidCrossEntropy (expectedBase none b) ls
  | .hinge b => .hingeLoss (expectedBase none b)
  | .cos b d => .cosineDistance (expectedBase none b) d
  | .poisson b => .poissonLoss (expectedBase none b)
  | .kl b d => .kullbackLeiberDivergence (expectedBase (some "KullbackLeiberDivergence") b) d

/-- Well-formedness of a round-trip selection: supplied reduced tensors are
non-null, and a supplied `name` differs from the variant's declared default
(otherwise serialization omits it by design). -/
def RTCase.wf : RTCase → Prop
  | .kl b _ => b.wf ∧ b.nm ≠ some "KullbackLeiberDivergence"
  | r => r.base.wf

/-! ## Concrete values used by the witnesses -/

/-- A minimal valid build-kind document. -/
def dA : Doc := [("version", .vInt 1), ("kind", .vStr "build")]

/-- The specification resolved from `[dA]`. -/
def SA : Spec :=
  { values := [dA], data := dA,
    headers := { version := 1, kind := "build", tags := none,
                 logging := none, backend := none },
    parsedData := dA }

/-- A build-kind document with an `hptuning` section, which is a legal
section of the format but not a possible section for this kind. -/
def d7 : Doc :=
  [("version", .vInt 1), ("kind", .vStr "build"), ("hptuning", .vInt 0)]

/-- A specification whose headers carry a duplicated tags list. -/
def wSpec : Spec :=
  { values := [], data := [],
    headers := { version := 1, kind := "build", tags := some ["a", "a"],
                 logging := none, backend := none },
    parsedData := [] }

/-- A specification whose headers carry no tags. -/
def wSpecNone : Spec :=
  { values := [], data := [],
    headers := { version := 1, kind := "build", tags := none,
                 logging := none, backend := none },
    parsedData := [] }

/-- A round-trip selection exercising supplied reduced fields. -/
def rtW : RTCase :=
  .huber { il := some (.vStr "images"), ol := none, w := 2,
           nm := some "n", c := false } (1 / 5)

/-! # Helper lemmas -/

theorem resolveVal_ifTrue {doc sc c body r} (hc : evalCond doc sc c = .ok true)
    (hb : resolveVal doc sc body = r) : resolveVal doc sc (.opIf c body) = r := by
  rw [resolveVal.eq_def]
  dsimp only
  rw [hc, hb]

theorem resolveVal_str {doc sc s} : resolveVal doc sc (.vStr s) = .ok [.vStr s] := by
  rw [resolveVal.eq_def]

theorem resolveVal_vMap {doc sc kvs kvs'} (h : resolveEntries doc sc kvs = .ok kvs') :
    resolveVal doc sc (.vMap kvs) = .ok [.vMap kvs'] := by
  rw [resolveVal.eq_def]
  dsimp only
  rw [h]

theorem resolveEntries_nil {doc sc} : resolveEntries doc sc [] = .ok [] := by
  rw [resolveEntries.eq_def]

theorem resolveEntries_cons_one {doc sc k v v' rest rest'}
    (hv : resolveVal doc sc v = .ok [v'])
    (h : resolveEntries doc sc rest = .ok rest') :
    resolveEntries doc sc ((k, v) :: rest) = .ok ((k, v') :: rest') := by
  rw [resolveEntries.eq_def]
  dsimp only
  rw [hv, h]

theorem parseSections_nil {data} : parseSections data [] = .ok [] := rfl

theorem parseSections_cons_op_one {data k v rest rest' v'}
    (hk : k ∈ OP_PARSING_SECTIONS)
    (h : parseSections data rest = .ok rest')
    (hv : resolveVal data [] v = .ok [v']) :
    parseSections data ((k, v) :: rest) = .ok ((k, v') :: rest') := by
  rw [parseSections.eq_def]
  dsimp only
  rw [h, hv]
  simp [hk]

theorem parseSections_cons_plain {data k v rest rest'}
    (hk : k ∉ OP_PARSING_SECTIONS)
    (h : parseSections data rest = .ok rest') :
    parseSections data ((k, v) :: rest) = .ok ((k, v) :: rest') := by
  rw [parseSections.eq_def]
  dsimp only
  rw [h]
  simp [hk]

mutual

/-- The operator resolver is the identity (a one-element yield) on
operator-free values. -/
theorem resolveVal_opFree (doc : Doc) (sc : List (String × Val)) :
    ∀ v : Val, Val.opFree v = true → resolveVal doc sc v = .ok [v]
  | .vNull, _ => by rw [resolveVal.eq_def]
  | .vBool _, _ => by rw [resolveVal.eq_def]
  | .vInt _, _ => by rw [resolveVal.eq_def]
  | .vRat _, _ => by rw [resolveVal.eq_def]
  | .vStr _, _ => by rw [resolveVal.eq_def]
  | .opIf _ _, h => by simp [Val.opFree] at h
  | .opFor _ _ _, h => by simp [Val.opFree] at h
  | .vList xs, h => by
      rw [resolveVal.eq_def]
      dsimp only
      rw [resolveSeq_opFree doc sc xs (by simpa [Val.opFree] using h)]
  | .vMap kvs, h => by
      rw [resolveVal.eq_def]
      dsimp only
      rw [resolveEntries_opFree doc sc kvs (by simpa [Val.opFree] using h)]
termination_by v => (sizeOf v, 0)

theorem resolveSeq_opFree (doc : Doc) (sc : List (String × Val)) :
    ∀ xs : List Val, Val.opFreeList xs = true → resolveSeq doc sc xs = .ok xs
  | [], _ => by rw [resolveSeq.eq_def]
  | v :: vs, h => by
      have h1 : Val.opFree v = true := by
        have := h
        simp [Val.opFreeList, Bool.and_eq_true] at this
        exact this.1
      have h2 : Val.opFreeList vs = true := by
        have := h
        simp [Val.opFreeList, Bool.and_eq_true] at this
        exact this.2
      rw [resolveSeq.eq_def]
      dsimp only
      rw [resolveVal_opFree doc sc v h1, resolveSeq_opFree doc sc vs h2]
      rfl
termination_by xs => (sizeOf xs, 0)

theorem resolveEntries_opFree (doc : Doc) (sc : List (String × Val)) :
    ∀ kvs : List (String × Val), Val.opFreeEntries kvs = true →
      resolveEntries doc sc kvs = .ok kvs
  | [], _ => by rw [resolveEntries.eq_def]
  | (k, v) :: rest, h => by
      have h1 : Val.opFree v = true := by
        have := h
        simp [Val.opFreeEntries, Bool.and_eq_true] at this
        exact this.1
      have h2 : Val.opFreeEntries rest = true := by
        have := h
        simp [Val.opFreeEntries, Bool.and_eq_true] at this
        exact this.2
      rw [resolveEntries.eq_def]
      dsimp only
      rw [resolveVal_opFree doc sc v h1, resolveEntries_opFree doc sc rest h2]
termination_by kvs => (sizeOf kvs, 0)

end

/-- Parsing is the identity on documents whose values are operator-free. -/
theorem parseSections_opFree (data : Doc) :
    ∀ d : Doc, Val.opFreeEntries d = true → parseSections data d = .ok d
  | [], _ => rfl
  | (k, v) :: rest, h => by
      have h1 : Val.opFree v = true := by
        have := h
        simp [Val.opFreeEntries, Bool.and_eq_true] at this
        exact this.1
      have h2 : Val.opFreeEntries rest = true := by
        have := h
        simp [Val.opFreeEntries, Bool.and_eq_true] at this
        exact this.2
      rw [parseSections.eq_def]
      dsimp only
      rw [parseSections_opFree data rest h2]
      dsimp only
      by_cases hk : k ∈ OP_PARSING_SECTIONS
      · rw [if_pos hk, resolveVal_opFree data [] v h1]
      · rw [if_neg hk]

/-- Parsing via `Parser.parse` is the identity on an operator-free document. -/
theorem parseDoc_opFree {d : Doc} (h : docOpFree d = true) : parseDoc d = .ok d :=
  parseSections_opFree d d h

theorem mergeTwo_nil_left (b : Doc) : mergeTwo [] b = b := by
  simp [mergeTwo, lookupKey]

theorem mergeAll_single (d : Doc) : mergeAll [d] = d := by
  simp [mergeAll, mergeTwo_nil_left]

/-- Inversion of a successful construction: the resolved specification
records exactly the sources, their merge, the validated headers of the
merge, and its parse. -/
theorem specMk_ok {cls values S} (h : specMk cls values = .ok S) :
    S.values = values ∧ S.data = mergeAll values ∧
    check_data cls (mergeAll values) = .ok () ∧
    validate_headers (get_headers cls (mergeAll values)) = .ok S.headers ∧
    parseDoc (mergeAll values) = .ok S.parsedData := by
  unfold specMk specMkWith at h
  cases h1 : check_data cls (mergeAll values) with
  | error e => rw [h1] at h; exact absurd h (by simp)
  | ok u =>
    cases u
    rw [h1] at h
    cases h2 : validate_headers (get_headers cls (mergeAll values)) with
    | error e => rw [h2] at h; exact absurd h (by simp)
    | ok headers =>
      rw [h2] at h
      cases h3 : parseDoc (mergeAll values) with
      | error e => rw [h3] at h; exact absurd h (by simp)
      | ok parsedData =>
        rw [h3] at h
        cases h
        exact ⟨rfl, rfl, rfl, rfl, rfl⟩

/-- Forward construction from the three pipeline results. -/
theorem specMk_build {cls values hd pd}
    (h1 : check_data cls (mergeAll values) = .ok ())
    (h2 : validate_headers (get_headers cls (mergeAll values)) = .ok hd)
    (h3 : parseDoc (mergeAll values) = .ok pd) :
    specMk cls values =
      .ok { values := values, data := mergeAll values, headers := hd, parsedData := pd } := by
  unfold specMk specMkWith
  rw [h1, h2, h3]

/-! # Claim theorems -/

/-- C2: `read` is idempotent — a value that is already a resolved
specification of the engine's bound class is returned unchanged, any other
value is run through the constructor, and therefore reading the result of a
`read` returns it unchanged (`read(read(x)) == read(x)`). -/
theorem c2_read_idempotent (cls : SpecClass) (s : Spec) (x : ReadValue) :
    specRead cls (.spec s) = .ok s ∧
    (specRead cls x).bind (fun s' => specRead cls (.spec s')) = specRead cls x := by
  refine ⟨rfl, ?_⟩
  cases x with
  | spec s' => rfl
  | raw vs => cases h : specMk cls vs <;> simp [specRead, h] <;> rfl

/-- C10: `NotebookSpecification._extra_validation` never raises: the
inherited validation is the base no-op, so the branch rewrapping a
configuration error into the message about a valid `build` section is
unreachable. -/
theorem c10_notebook_validation (s : Spec) :
    notebook_extra_validation s = .ok () ∧
    notebook_extra_validation s ≠ .error .notebookBuildSection :=
  ⟨rfl, fun h => by cases h⟩

/-- C9: the `tags` accessor deduplicates — absent or empty header tags give
`None` (never an empty list), and non-empty header tags give a list of the
distinct elements of the original list. -/
theorem c9_tags (S : Spec) :
    ((S.headers.tags = none ∨ S.headers.tags = some []) → S.tags = none) ∧
    (∀ l, S.headers.tags = some l → l ≠ [] →
      ∃ l', S.tags = some l' ∧ l'.Nodup ∧ ∀ x, x ∈ l' ↔ x ∈ l) := by
  constructor
  · rintro (h | h) <;> simp [Spec.tags, h]
  · intro l hl hne
    refine ⟨l.dedup, ?_, l.nodup_dedup, fun x => l.mem_dedup⟩
    simp [Spec.tags, hl, hne]

/-- Witness for C9 at concrete specifications: empty tags give `None` and
duplicated tags are deduplicated. -/
theorem c9_tags_witness : wSpecNone.tags = none ∧ wSpec.tags = some ["a"] :=
  ⟨(c9_tags wSpecNone).1 (Or.inl rfl), by decide⟩

/-- C8: with `MIN_VERSION = MAX_VERSION = 1`, documents with version 0 and
version 2 fail construction with the unsupported-version error, a document
with version 1 passes, and in general the version check succeeds exactly
when `MIN_VERSION <= version <= MAX_VERSION`. -/
theorem c8_version_boundary :
    specMk baseRunSpecification [[("version", .vInt 0), ("kind", .vStr "build")]] =
      .error (.unsupportedVersion 1 1) ∧
    specMk baseRunSpecification [[("version", .vInt 2), ("kind", .vStr "build")]] =
      .error (.unsupportedVersion 1 1) ∧
    (specMk baseRunSpecification [[("version", .vInt 1), ("kind", .vStr "build")]]).isOk = true ∧
    ∀ (d : Doc) (v : Int), lookupKey d "version" = some (.vInt v) →
      (check_version d = .ok () ↔ MIN_VERSION ≤ v ∧ v ≤ MAX_VERSION) := by
  refine ⟨rfl, rfl, rfl, ?_⟩
  intro d v h
  unfold check_version
  rw [h]
  dsimp only
  constructor
  · intro hok
    by_contra hc
    rw [if_neg hc] at hok
    exact absurd hok (by simp)
  · intro hc
    rw [if_pos hc]

/-- Witness for C8's general clause at version 1. -/
theorem c8_version_boundary_witness : check_version [("version", .vInt 1)] = .ok () :=
  (c8_version_boundary.2.2.2 [("version", .vInt 1)] 1 rfl).mpr (by decide)

/-- C4: dispatching `{"HuberLoss": {"clip": 0.2}}` yields a `HuberLoss`
instance with `clip == 0.2` and every other field at its declared default
(`weights == 1.0`, `collect == true`, tensors and name unset). -/
theorem c4_huber_dispatch :
    lossMake (.vMap [("HuberLoss", .vMap [("clip", .vRat (1 / 5))])]) =
      .ok (.huberLoss { input_layer := none, output_layer := none, weights := 1,
                        name := none, collect := true } (1 / 5)) ∧
    lossIdentifier (.huberLoss { input_layer := none, output_layer := none, weights := 1,
                                 name := none, collect := true } (1 / 5)) = "HuberLoss" :=
  ⟨rfl, rfl⟩

/-- A variant whose `dim` is required can never be built from parameters
that do not supply `dim`. -/
theorem mkDim_missing {nd ctor params} (h : lookupKey params "dim" = none) :
    (mkDim nd ctor params).isOk = false := by
  unfold mkDim
  cases h1 : findUnknown (baseLossFIELDS ++ ["dim"]) params with
  | some k => rfl
  | none =>
    cases h2 : makeBase nd params with
    | error e => rfl
    | ok b =>
      dsimp only
      rw [h]
      rfl

/-- C5: the bare selection `"CosineDistance"` fails with the
missing-required-field error for `dim`; `{"CosineDistance": {"dim": 3}}`
succeeds with `dim == 3` and every other field at its default; and neither
`dim`-requiring variant ever succeeds when its parameters omit `dim`. -/
theorem c5_cosine_required :
    lossMake (.vStr "CosineDistance") = .error (.missingRequiredField "dim") ∧
    lossMake (.vMap [("CosineDistance", .vMap [("dim", .vInt 3)])]) =
      .ok (.cosineDistance { input_layer := none, output_layer := none, weights := 1,
                             name := none, collect := true } 3) ∧
    ∀ params : List (String × Val), lookupKey params "dim" = none →
      (makeVariant "CosineDistance" params).isOk = false ∧
      (makeVariant "KullbackLeiberDivergence" params).isOk = false := by
  refine ⟨rfl, rfl, fun params h => ⟨?_, ?_⟩⟩
  · exact mkDim_missing h
  · exact mkDim_missing h

/-- Witness for C5's general clause at the empty parameter mapping. -/
theorem c5_cosine_required_witness :
    (makeVariant "CosineDistance" []).isOk = false ∧
    (makeVariant "KullbackLeiberDivergence" []).isOk = false :=
  c5_cosine_required.2.2 [] rfl

/-- A document without a `version` key fails `check_data` with the
missing-version error, whatever else it contains. -/
theorem check_data_version_missing {cls data} (h : lookupKey data "version" = none) :
    check_data cls data = .error .missingVersion := by
  unfold check_data check_version
  rw [h]

/-- The version check passes on an in-range integer version. -/
theorem check_version_ok {data v} (h : lookupKey data "version" = some (.vInt v))
    (h1 : MIN_VERSION ≤ v) (h2 : v ≤ MAX_VERSION) : check_version data = .ok () := by
  unfold check_version
  rw [h]
  dsimp only
  rw [if_pos ⟨h1, h2⟩]

/-- A document passing the version check but without a `kind` key fails
`check_data` with the missing-kind error, whatever else it contains. -/
theorem check_data_kind_missing {cls data} (hv : check_version data = .ok ())
    (h : lookupKey data "kind" = none) : check_data cls data = .error .missingKind := by
  unfold check_data
  rw [hv]
  dsimp only
  unfold check_kind
  rw [h]

/-- C6 (amended): a document whose merge lacks `version` fails construction
with the missing-version error, and one whose version is present and
supported but whose `kind` is absent fails with the missing-kind error —
in both cases before any section-shape check, since the conclusion holds
whatever sections the document contains. -/
theorem c6_missing_headers (cls : SpecClass) (values : List Doc) :
    (lookupKey (mergeAll values) "version" = none →
      specMk cls values = .error .missingVersion) ∧
    (∀ v : Int, lookupKey (mergeAll values) "version" = some (.vInt v) →
      MIN_VERSION ≤ v → v ≤ MAX_VERSION →
      lookupKey (mergeAll values) "kind" = none →
      specMk cls values = .error .missingKind) := by
  constructor
  · intro h
    show specMkWith cls values (mergeAll values) = _
    unfold specMkWith
    rw [check_data_version_missing h]
  · intro v h hv1 hv2 hk
    show specMkWith cls values (mergeAll values) = _
    unfold specMkWith
    rw [check_data_kind_missing (check_version_ok h hv1 hv2) hk]

/-- Witness for C6 (amended): the empty document fails with missing
version; a version-only document fails with missing kind. -/
theorem c6_missing_headers_witness :
    specMk baseRunSpecification [([] : Doc)] = .error .missingVersion ∧
    specMk baseRunSpecification [[("version", .vInt 1)]] = .error .missingKind :=
  ⟨(c6_missing_headers baseRunSpecification [[]]).1 rfl,
   (c6_missing_headers baseRunSpecification [[("version", .vInt 1)]]).2 1 rfl
     (by decide) (by decide) rfl⟩

/-- C6 counterexample: the document `{version: 5}` has no `kind` key, yet
construction fails with the unsupported-version error, not with a
missing-header error for `kind`. -/
theorem c6_counterexample :
    lookupKey (mergeAll [[("version", .vInt 5)]]) "kind" = none ∧
    specMk baseRunSpecification [[("version", .vInt 5)]] =
      .error (.unsupportedVersion 1 1) ∧
    PErr.unsupportedVersion 1 1 ≠ PErr.missingKind ∧
    PErr.unsupportedVersion 1 1 ≠ PErr.missingVersion :=
  ⟨rfl, rfl, by decide, by decide⟩

/-- C7: once the header checks pass, a document containing a top-level key
outside the class's possible sections fails `check_data` with an unexpected-
or unsupported-section error naming an offending section (the first one in
the scan order; Python iterates a set difference, whose order is
unspecified). -/
theorem c7_section_legality (cls : SpecClass) (data : Doc) (k : String)
    (hv : check_version data = .ok ()) (hk : check_kind data = .ok ())
    (hm : check_kind_match cls data = .ok ())
    (hsub : cls.possibleSections ⊆ SECTIONS)
    (hmem : k ∈ docKeys data) (hpos : k ∉ cls.possibleSections) :
    ∃ k', k' ∈ docKeys data ∧ k' ∉ cls.possibleSections ∧
      (check_data cls data = .error (.unexpectedSection k') ∨
       check_data cls data = .error (.unsupportedSection k')) := by
  have hcd : check_data cls data = check_sections cls data := by
    unfold check_data
    rw [hv]
    dsimp only
    rw [hk]
    dsimp only
    rw [hm]
  rw [hcd]
  unfold check_sections firstNotIn
  cases h1 : List.find? (fun k => decide (k ∉ SECTIONS)) (docKeys data) with
  | some k₁ =>
    have hfind := List.find?_some h1
    have hp : k₁ ∉ SECTIONS := by simpa using hfind
    have hm₁ : k₁ ∈ docKeys data := List.mem_of_find?_eq_some h1
    exact ⟨k₁, hm₁, fun hc => hp (hsub hc), Or.inl rfl⟩
  | none =>
    cases h2 : List.find? (fun k => decide (k ∉ cls.possibleSections)) (docKeys data) with
    | none =>
      exfalso
      have := List.find?_eq_none.mp h2 k hmem
      simp at this
      exact hpos this
    | some k₂ =>
      have hfind := List.find?_some h2
      have hp : k₂ ∉ cls.possibleSections := by simpa using hfind
      have hm₂ : k₂ ∈ docKeys data := List.mem_of_find?_eq_some h2
      exact ⟨k₂, hm₂, hp, Or.inr rfl⟩

/-- Witness for C7 at a concrete document: `hptuning` is a legal section of
the format but not possible for the build kind, and `check_data` reports
exactly it. -/
theorem c7_section_legality_witness :
    check_data baseRunSpecification d7 = .error (.unsupportedSection "hptuning") := by
  have h := c7_section_legality baseRunSpecification d7 "hptuning" rfl rfl rfl
    (by decide) (by decide) (by decide)
  exact rfl

/-- C1 (amended): `S.patch(B)` re-runs the pipeline on
`[S._parsed_data] + B`, so a successful patch's merged document is the merge
of S's PARSED document with B (B's top-level keys overriding); S itself is
untouched — its fields remain exactly those derived from A alone.  When A is
operator-free, parsing is the identity and the patched merge coincides with
the claimed merge of A and B. -/
theorem c1_patch_merge (cls : SpecClass) (A : Doc) (B : List Doc) (S S' : Spec)
    (hS : specMk cls [A] = .ok S) (hS' : specPatch cls S B = .ok S') :
    S'.data = mergeAll (S.parsedData :: B) ∧
    S.data = A ∧ S.values = [A] ∧
    (docOpFree A = true → S.parsedData = A ∧ S'.data = mergeAll (A :: B)) := by
  have h1 := specMk_ok hS
  have h2 := specMk_ok (show specMk cls (S.parsedData :: B) = .ok S' from hS')
  refine ⟨h2.2.1, ?_, h1.1, ?_⟩
  · rw [h1.2.1, mergeAll_single]
  · intro hfree
    have hp := h1.2.2.2.2
    rw [mergeAll_single] at hp
    rw [parseDoc_opFree hfree] at hp
    have hPA : S.parsedData = A := by
      injection hp with h
      exact h.symm
    exact ⟨hPA, by rw [h2.2.1, hPA]⟩

/-- Witness for C1 (amended) at a concrete operator-free document. -/
theorem c1_patch_merge_witness :
    SA.data = mergeAll (SA.parsedData :: []) ∧ SA.data = dA ∧ SA.values = [dA] ∧
    (docOpFree dA = true → SA.parsedData = dA ∧ SA.data = mergeAll (dA :: [])) := by
  have h := c1_patch_merge baseRunSpecification dA [] SA SA rfl rfl
  exact ⟨h.1, h.2.1, h.2.2.1, fun hf => ⟨(h.2.2.2 hf).1, (h.2.2.2 hf).2⟩⟩

/-- C1 counterexample: for the valid source `cexA`, whose `build` section
holds an If-node with a true condition, the patch succeeds but its merged
document differs from the claimed `merge(A, B)` at the `build` key — the
pipeline restarts from the parsed document, in which the operator has
already been expanded. -/
theorem c1_counterexample :
    specMk baseRunSpecification [cexA] = .ok cexS ∧
    specPatch baseRunSpecification cexS [cexB] = .ok cexPatched ∧
    lookupKey cexPatched.data "build" ≠ lookupKey (mergeAll [cexA, cexB]) "build" := by
  have hparse : parseDoc cexA = .ok cexAParsed := by
    have h3 : parseSections cexA
        [("build", .vMap [("dockerfile", .opIf (.boolLit true) (.vStr "Dockerfile"))])] =
        .ok [("build", .vMap [("dockerfile", .vStr "Dockerfile")])] :=
      parseSections_cons_op_one (by decide) parseSections_nil
        (resolveVal_vMap (resolveEntries_cons_one
          (resolveVal_ifTrue rfl resolveVal_str) resolveEntries_nil))
    show parseSections cexA (("version", Val.vInt 1) :: ("kind", Val.vStr "build") ::
      [("build", Val.vMap [("dockerfile", Val.opIf (.boolLit true) (.vStr "Dockerfile"))])]) =
      .ok cexAParsed
    rw [parseSections_cons_plain (by decide) (parseSections_cons_plain (by decide) h3)]
    rfl
  refine ⟨?_, ?_, by decide⟩
  · exact @specMk_build baseRunSpecification [cexA] _ _ rfl rfl hparse
  · have hparse2 : parseDoc (mergeAll [cexS.parsedData, cexB]) = .ok cexPatchedData :=
      parseDoc_opFree (by decide)
    exact @specMk_build baseRunSpecification [cexS.parsedData, cexB] _ _ rfl rfl hparse2

/-- C3 (amended): `unmake(make(raw)) == raw` for every registered variant
when the raw selection supplies every non-reduced field (`weights`,
`collect`, and the variant's extra fields) and supplies the reduced fields
(`input_layer`, `output_layer`, `name`) only with non-default, non-null
values.  A bare-name selection does not round-trip to itself: serialization
emits the non-reduced fields even at their defaults, so it returns the
mapping form instead (see the counterexample). -/
theorem c3_roundtrip (r : RTCase) (h : r.wf) :
    lossMake r.toRaw = .ok r.expected ∧ lossUnmake r.expected = r.toRaw := by
  cases r with
  | kl b d =>
    obtain ⟨il, ol, w, nm, c⟩ := b
    obtain ⟨⟨hil, hol⟩, hnm⟩ := h
    cases il <;> cases ol <;> cases nm <;>
      simp_all [RTCase.toRaw, RTCase.ident, RTCase.extras, RTCase.base, RTCase.expected,
        rawBaseParams, expectedBase, RawBase.wf, lossMake, makeVariant, mkDim,
        findUnknown, baseLossFIELDS, makeBase, tensorField, floatField, boolField,
        nameField, intField, lookupKey, lossUnmake, dumpBase, dumpTensor, dumpName]
  | cos b d =>
    obtain ⟨il, ol, w, nm, c⟩ := b
    obtain ⟨hil, hol⟩ := h
    cases il <;> cases ol <;> cases nm <;>
      simp_all [RTCase.toRaw, RTCase.ident, RTCase.extras, RTCase.base, RTCase.expected,
        rawBaseParams, expectedBase, RawBase.wf, lossMake, makeVariant, mkDim,
        findUnknown, baseLossFIELDS, makeBase, tensorField, floatField, boolField,
        nameField, intField, lookupKey, lossUnmake, dumpBase, dumpTensor, dumpName]
  | ad b =>
    obtain ⟨il, ol, w, nm, c⟩ := b
    obtain ⟨hil, hol⟩ := h
    cases il <;> cases ol <;> cases nm <;>
      simp_all [RTCase.toRaw, RTCase.ident, RTCase.extras, RTCase.base, RTCase.expected,
        rawBaseParams, expectedBase, RawBase.wf, lossMake, makeVariant, mkPlain,
        findUnknown, baseLossFIELDS, makeBase, tensorField, floatField, boolField,
        nameField, lookupKey, lossUnmake, dumpBase, dumpTensor, dumpName]
  | mse b =>
    obtain ⟨il, ol, w, nm, c⟩ := b
    obtain ⟨hil, hol⟩ := h
    cases il <;> cases ol <;> cases nm <;>
      simp_all [RTCase.toRaw, RTCase.ident, RTCase.extras, RTCase.base, RTCase.expected,
        rawBaseParams, expectedBase, RawBase.wf, lossMake, makeVariant, mkPlain,
        findUnknown, baseLossFIELDS, makeBase, tensorField, floatField, boolField,
        nameField, lookupKey, lossUnmake, dumpBase, dumpTensor, dumpName]
  | hinge b =>
    obtain ⟨il, ol, w, nm, c⟩ := b
    obtain ⟨hil, hol⟩ := h
    cases il <;> cases ol <;> cases nm <;>
      simp_all [RTCase.toRaw, RTCase.ident, RTCase.extras, RTCase.base, RTCase.expected,
        rawBaseParams, expectedBase, RawBase.wf, lossMake, makeVariant, mkPlain,
        findUnknown, baseLossFIELDS, makeBase, tensorField, floatField, boolField,
        nameField, lookupKey, lossUnmake, dumpBase, dumpTensor, dumpName]
  | poisson b =>
    obtain ⟨il, ol, w, nm, c⟩ := b
    obtain ⟨hil, hol⟩ := h
    cases il <;> cases ol <;> cases nm <;>
      simp_all [RTCase.toRaw, RTCase.ident, RTCase.extras, RTCase.base, RTCase.expected,
        rawBaseParams, expectedBase, RawBase.wf, lossMake, makeVariant, mkPlain,
        findUnknown, baseLossFIELDS, makeBase, tensorField, floatField, boolField,
        nameField, lookupKey, lossUnmake, dumpBase, dumpTensor, dumpName]
  | log b eps =>
    obtain ⟨il, ol, w, nm, c⟩ := b
    obtain ⟨hil, hol⟩ := h
    cases il <;> cases ol <;> cases nm <;>
      simp_all [RTCase.toRaw, RTCase.ident, RTCase.extras, RTCase.base, RTCase.expected,
        rawBaseParams, expectedBase, RawBase.wf, lossMake, makeVariant, mkFloatExtra,
        findUnknown, baseLossFIELDS, makeBase, tensorField, floatField, boolField,
        nameField, lookupKey, lossUnmake, dumpBase, dumpTensor, dumpName]
  | huber b clip =>
    obtain ⟨il, ol, w, nm, c⟩ := b
    obtain ⟨hil, hol⟩ := h
    cases il <;> cases ol <;> cases nm <;>
      simp_all [RTCase.toRaw, RTCase.ident, RTCase.extras, RTCase.base, RTCase.expected,
        rawBaseParams, expectedBase, RawBase.wf, lossMake, makeVariant, mkFloatExtra,
        findUnknown, baseLossFIELDS, makeBase, tensorField, floatField, boolField,
        nameField, lookupKey, lossUnmake, dumpBase, dumpTensor, dumpName]
  | sce b ls =>
    obtain ⟨il, ol, w, nm, c⟩ := b
    obtain ⟨hil, hol⟩ := h
    cases il <;> cases ol <;> cases nm <;>
      simp_all [RTCase.toRaw, RTCase.ident, RTCase.extras, RTCase.base, RTCase.expected,
        rawBaseParams, expectedBase, RawBase.wf, lossMake, makeVariant, mkFloatExtra,
        findUnknown, baseLossFIELDS, makeBase, tensorField, floatField, boolField,
        nameField, lookupKey, lossUnmake, dumpBase, dumpTensor, dumpName]
  | sige b ls =>
    obtain ⟨il, ol, w, nm, c⟩ := b
    obtain ⟨hil, hol⟩ := h
    cases il <;> cases ol <;> cases nm <;>
      simp_all [RTCase.toRaw, RTCase.ident, RTCase.extras, RTCase.base, RTCase.expected,
        rawBaseParams, expectedBase, RawBase.wf, lossMake, makeVariant, mkFloatExtra,
        findUnknown, baseLossFIELDS, makeBase, tensorField, floatField, boolField,
        nameField, lookupKey, lossUnmake, dumpBase, dumpTensor, dumpName]
  | cdl b mn mx =>
    obtain ⟨il, ol, w, nm, c⟩ := b
    obtain ⟨hil, hol⟩ := h
    cases il <;> cases ol <;> cases nm <;>
      simp_all [RTCase.toRaw, RTCase.ident, RTCase.extras, RTCase.base, RTCase.expected,
        rawBaseParams, expectedBase, RawBase.wf, lossMake, makeVariant, mkClippedDelta,
        findUnknown, baseLossFIELDS, makeBase, tensorField, floatField, boolField,
        nameField, lookupKey, lossUnmake, dumpBase, dumpTensor, dumpName]

/-- Witness for C3 (amended): a `HuberLoss` selection supplying a reduced
tensor and a name round-trips exactly. -/
theorem c3_roundtrip_witness :
    lossMake rtW.toRaw = .ok rtW.expected ∧ lossUnmake rtW.expected = rtW.toRaw :=
  c3_roundtrip rtW (by constructor <;> decide)

/-- C3 counterexample: `{"HuberLoss": {"clip": 0.2}}` supplies no reduced
field at all (so it supplies only non-default values for reduced fields,
vacuously), yet serialization of the loaded instance also emits the
non-reduced defaults `weights` and `collect` and so differs from the raw
input; and the bare selection `"HingeLoss"` does not round-trip to itself —
it serializes to the mapping form. -/
theorem c3_counterexample :
    lossMake (.vMap [("HuberLoss", .vMap [("clip", .vRat (1 / 5))])]) =
      .ok (.huberLoss { input_layer := none, output_layer := none, weights := 1,
                        name := none, collect := true } (1 / 5)) ∧
    lossUnmake (.huberLoss { input_layer := none, output_layer := none, weights := 1,
                             name := none, collect := true } (1 / 5)) ≠
      .vMap [("HuberLoss", .vMap [("clip", .vRat (1 / 5))])] ∧
    lossMake (.vStr "HingeLoss") =
      .ok (.hingeLoss { input_layer := none, output_layer := none, weights := 1,
                        name := none, collect := true }) ∧
    lossUnmake (.hingeLoss { input_layer := none, output_layer := none, weights := 1,
                             name := none, collect := true }) ≠ .vStr "HingeLoss" :=
  ⟨rfl, by decide, rfl, by decide⟩
